import Mathlib

/-!
Verification of the talkiebee connection/session protocol layer.

The development shallowly embeds the two service implementations of the
repository:

* `audio-service.ts` — the `AudioService` transcoding helpers
  (`arrayBufferToBase64`, `base64ToArrayBuffer`, `detectAudioFormat`,
  `getMimeTypeFromFormat`) and its `WebSocketService` connection manager
  (namespace `AudioSvc`);
* `ws-service.ts` — the event-bus `WebSocketService` variant
  (namespace `WsSvc`).

JS strings are represented as `List Char` when their text structure matters
(base64 text) and by their character-code sequences (`List Nat`) when they act
as binary strings.  Buffers (`ArrayBuffer`/`Uint8Array`) are `List Nat` with
every element `< 256`.  Methods of the stateful services are embedded as
functions `St → St × List Out`, where `Out` records the externally observable
actions (transport opens/writes, timers armed and cleared, events emitted,
promise resolutions).
-/

/-- Byte buffers: a JS `Uint8Array`/binary string viewed as its byte values. -/
abbrev Bytes := List Nat

/-- The base64 alphabet used by `btoa`/`atob`. -/
def b64alphabet : List Char :=
  "ABCDEFGHIJKLMNOPQRSTUVWXYZabcdefghijklmnopqrstuvwxyz0123456789+/".toList

/-- Character for a sextet, by table lookup. -/
def b64chr (n : Nat) : Char := b64alphabet.getD n 'A'

/-- Inverse alphabet lookup used by the `atob` model. -/
def decodeChar (c : Char) : Option Nat := b64alphabet.findIdx? (fun a => a == c)

/-- Base64 encoding of a byte sequence: the semantics of JS `btoa` applied to a
binary string holding these byte values. -/
def b64encode : Bytes → List Char
  | [] => []
  | [a] => [b64chr (a / 4), b64chr (a % 4 * 16), '=', '=']
  | [a, b] => [b64chr (a / 4), b64chr (a % 4 * 16 + b / 16), b64chr (b % 16 * 4), '=']
  | a :: b :: c :: rest =>
      b64chr (a / 4) :: b64chr (a % 4 * 16 + b / 16) ::
      b64chr (b % 16 * 4 + c / 64) :: b64chr (c % 64) :: b64encode rest

/-- Base64 decoding loop: the semantics of JS `atob` (forgiving base64), with
`none` for the inputs on which `atob` throws. -/
def b64decodeLoop : List Char → Option Bytes
  | [] => some []
  | [_] => none
  | [c1, c2] =>
      match decodeChar c1, decodeChar c2 with
      | some s1, some s2 => some [s1 * 4 + s2 / 16]
      | _, _ => none
  | [c1, c2, c3] =>
      match decodeChar c1, decodeChar c2, decodeChar c3 with
      | some s1, some s2, some s3 => some [s1 * 4 + s2 / 16, s2 % 16 * 16 + s3 / 4]
      | _, _, _ => none
  | c1 :: c2 :: c3 :: c4 :: rest =>
      if rest.isEmpty then
        if c3 = '=' then
          if c4 = '=' then
            match decodeChar c1, decodeChar c2 with
            | some s1, some s2 => some [s1 * 4 + s2 / 16]
            | _, _ => none
          else none
        else if c4 = '=' then
          match decodeChar c1, decodeChar c2, decodeChar c3 with
          | some s1, some s2, some s3 => some [s1 * 4 + s2 / 16, s2 % 16 * 16 + s3 / 4]
          | _, _, _ => none
        else
          match decodeChar c1, decodeChar c2, decodeChar c3, decodeChar c4 with
          | some s1, some s2, some s3, some s4 =>
              some [s1 * 4 + s2 / 16, s2 % 16 * 16 + s3 / 4, s3 % 4 * 64 + s4]
          | _, _, _, _ => none
      else
        match decodeChar c1, decodeChar c2, decodeChar c3, decodeChar c4,
              b64decodeLoop rest with
        | some s1, some s2, some s3, some s4, some tail =>
            some ((s1 * 4 + s2 / 16) :: (s2 % 16 * 16 + s3 / 4) :: (s3 % 4 * 64 + s4) :: tail)
        | _, _, _, _, _ => none

/-- The 32 KB chunk loop of `arrayBufferToBase64` that assembles the
intermediate binary string, viewed as its character codes. -/
def bytesToBinary (bytes : Bytes) : Bytes :=
  if h : bytes = [] then []
  else bytes.take 32768 ++ bytesToBinary (bytes.drop 32768)
termination_by bytes.length
decreasing_by
  simp only [List.length_drop]
  have := List.length_pos.mpr h
  omega

/-- JS `btoa`: throws when a character code exceeds 255 (modelled as `none`),
otherwise yields the base64 text. -/
def btoaJS (binary : Bytes) : Option (List Char) :=
  if binary.all (fun b => decide (b < 256)) then some (b64encode binary) else none

/-- JS `atob` on a base64 text, returning the decoded binary string as its
character codes. -/
def atobJS (s : List Char) : Option Bytes := b64decodeLoop s

/-- The strip of an optional leading data URI prefix, the regex
replace of the source with pattern anchored at the start: literal
data colon audio slash, one or more non-semicolon characters, then the literal
semicolon base64 comma. -/
def stripDataUri (s : List Char) : List Char :=
  if s.take 11 = "data:audio/".toList then
    let rest := s.drop 11
    match rest.findIdx? (fun c => c == ';') with
    | some i =>
        if 1 ≤ i ∧ (rest.drop i).take 8 = ";base64,".toList then rest.drop (i + 8) else s
    | none => s
  else s

/-- `arrayBufferToBase64` (identical in `audio-service.ts` and
`ws-service.ts`): chunked binary string build, then `btoa`. -/
def arrayBufferToBase64 (buffer : Bytes) : Option (List Char) :=
  btoaJS (bytesToBinary buffer)

/-- `base64ToArrayBuffer` (identical in both services): strip an optional data
URI prefix, `atob`, then read the character codes back into a byte array. -/
def base64ToArrayBuffer (base64 : List Char) : Option Bytes :=
  atobJS (stripDataUri base64)

/-- Byte values of an ASCII signature string. -/
def sigBytes (s : String) : Bytes := s.toList.map Char.toNat

/-- JS `String.startsWith` on binary strings viewed as code sequences. -/
def startsWithB : Bytes → Bytes → Bool
  | [], _ => true
  | _ :: _, [] => false
  | p :: ps, x :: xs => p == x && startsWithB ps xs

/-- JS `String.includes` on binary strings viewed as code sequences. -/
def includesB (pat : Bytes) : Bytes → Bool
  | [] => startsWithB pat []
  | x :: xs => startsWithB pat (x :: xs) || includesB pat xs

/-- `detectAudioFormat` of `audio-service.ts`: decode the first 100 base64
characters and test container signatures on the resulting binary string; any
decode failure falls back to m4a. -/
def detectAudioFormat (base64Data : List Char) : String :=
  let cleanBase64 := stripDataUri base64Data
  match atobJS (cleanBase64.take 100) with
  | none => "m4a"
  | some binaryString =>
      if includesB (sigBytes "ftyp") binaryString && includesB (sigBytes "M4A") binaryString then
        "m4a"
      else if includesB (sigBytes "webm") binaryString then "webm"
      else if startsWithB (sigBytes "RIFF") binaryString && includesB (sigBytes "WAVE") binaryString then
        "wav"
      else if startsWithB (sigBytes "OggS") binaryString then "ogg"
      else "m4a"

/-- `getMimeTypeFromFormat` of `audio-service.ts`. -/
def getMimeTypeFromFormat (format : String) : String :=
  if format = "m4a" then "audio/mp4"
  else if format = "mp4" then "audio/mp4"
  else if format = "webm" then "audio/webm"
  else if format = "wav" then "audio/wav"
  else if format = "ogg" then "audio/ogg"
  else "audio/mp4"

/-! State-machine embedding shared by both WebSocket services. -/

/-- WebSocket ready states. -/
inductive ReadyState where
  | CONNECTING
  | OPEN
  | CLOSING
  | CLOSED
deriving DecidableEq

/-- Externally observable actions of the services: transport operations,
timer operations, emitted events/callbacks, promise outcomes. -/
inductive Out where
  | wsOpen (url : String)
  | wsClose (code : Option Nat)
  | wsSendBin
  | wsSendTxt (payload : String)
  | timerSet (delay : Nat)
  | timerCleared
  | cbConnect
  | cbDisconnect
  | cbError (msg : String)
  | cbMaxRetryExceeded (n : Nat)
  | cbUserCount (n : Nat)
  | cbAudio
  | emitE (name : String) (arg : Option String)
  | logMsg (m : String)
  | promiseResolve
  | promiseReject (msg : String)
  | throwErr (msg : String)
deriving DecidableEq

/-- Count of transport opens in an action trace. -/
def countOpens (l : List Out) : Nat :=
  l.countP fun o => match o with | Out.wsOpen _ => true | _ => false

/-- Count of armed timers in an action trace. -/
def countTimers (l : List Out) : Nat :=
  l.countP fun o => match o with | Out.timerSet _ => true | _ => false

/-- Count of transport writes in an action trace. -/
def countSends (l : List Out) : Nat :=
  l.countP fun o => match o with | Out.wsSendBin => true | Out.wsSendTxt _ => true | _ => false

/-- Count of maxRetryExceeded callbacks in an action trace. -/
def countMaxRetry (l : List Out) : Nat :=
  l.countP fun o => match o with | Out.cbMaxRetryExceeded _ => true | _ => false

/-- Count of disconnect callbacks (audio-service variant). -/
def countCbDisconnect (l : List Out) : Nat :=
  l.countP fun o => match o with | Out.cbDisconnect => true | _ => false

/-- Count of bus events with a given name (ws-service variant). -/
def countEmit (name : String) (l : List Out) : Nat :=
  l.countP fun o => match o with | Out.emitE n _ => n == name | _ => false

namespace AudioSvc

/-- State of the `WebSocketService` in `audio-service.ts`. -/
structure St where
  ws : Option ReadyState
  reconnectAttempts : Nat
  serverUrl : String
  isConnecting : Bool
  reconnectTimeout : Option Nat
  shouldReconnect : Bool
  isDestroyed : Bool
deriving DecidableEq

/-- maxReconnectAttempts field value. -/
def maxReconnectAttempts : Nat := 5

/-- reconnectDelay field value (base delay in milliseconds). -/
def reconnectDelay : Nat := 1000

/-- Fresh singleton state. -/
def initSt : St :=
  { ws := none, reconnectAttempts := 0, serverUrl := "", isConnecting := false,
    reconnectTimeout := none, shouldReconnect := true, isDestroyed := false }

/-- isConnected(). -/
def isConnected (s : St) : Bool := !s.isDestroyed && s.ws == some ReadyState.OPEN

/-- connect(serverUrl): guarded by destruction, an in-flight attempt and an
already open socket; otherwise clears a pending reconnect timer, closes any
previous socket and opens a new one. -/
def connect (url : String) (s : St) : St × List Out :=
  if s.isDestroyed then (s, [])
  else if s.isConnecting || s.ws == some ReadyState.CONNECTING then (s, [])
  else if s.ws == some ReadyState.OPEN then (s, [])
  else
    let o1 : List Out := if s.reconnectTimeout.isSome then [Out.timerCleared] else []
    let closeOld : List Out := if s.ws.isSome then [Out.wsClose none] else []
    ({ s with reconnectTimeout := none, serverUrl := url, isConnecting := true,
              shouldReconnect := true, ws := some ReadyState.CONNECTING },
     o1 ++ closeOld ++ [Out.wsOpen url])

/-- The onopen handler. -/
def onOpen (s : St) : St × List Out :=
  if s.isDestroyed then (s, [])
  else ({ s with ws := some ReadyState.OPEN, isConnecting := false, reconnectAttempts := 0 },
        [Out.cbConnect])

/-- scheduleReconnect(): guard (destroyed, reconnection disabled or budget
reached, the latter reported through onMaxRetryExceeded), then increment the
attempt counter and arm the exponential-backoff timer. -/
def scheduleReconnect (s : St) : St × List Out :=
  if s.isDestroyed ∨ s.shouldReconnect = false ∨ maxReconnectAttempts ≤ s.reconnectAttempts then
    if maxReconnectAttempts ≤ s.reconnectAttempts ∧ s.isDestroyed = false then
      (s, [Out.cbMaxRetryExceeded s.reconnectAttempts])
    else (s, [])
  else
    let o1 : List Out := if s.reconnectTimeout.isSome then [Out.timerCleared] else []
    let n := s.reconnectAttempts + 1
    let d := min (reconnectDelay * 2 ^ (n - 1)) (2 * 60 * 1000)
    ({ s with reconnectAttempts := n, reconnectTimeout := some d }, o1 ++ [Out.timerSet d])

/-- The onclose handler: emits the disconnect callback, then either schedules a
reconnect (abnormal code, reconnection enabled, budget left) or reports
onMaxRetryExceeded (abnormal code, budget exhausted). -/
def onClose (code : Nat) (s : St) : St × List Out :=
  if s.isDestroyed then (s, [])
  else
    let s1 := { s with isConnecting := false, ws := some ReadyState.CLOSED }
    if code ≠ 1000 ∧ s.shouldReconnect = true ∧ s.reconnectAttempts < maxReconnectAttempts then
      ((scheduleReconnect s1).1, Out.cbDisconnect :: (scheduleReconnect s1).2)
    else if code ≠ 1000 ∧ maxReconnectAttempts ≤ s.reconnectAttempts then
      (s1, [Out.cbDisconnect, Out.cbMaxRetryExceeded s.reconnectAttempts])
    else (s1, [Out.cbDisconnect])

/-- The onerror handler. -/
def onErr (s : St) : St × List Out :=
  if s.isDestroyed then (s, [])
  else ({ s with isConnecting := false }, [Out.cbError "WebSocket connection error"])

/-- disconnect(): disable reconnection, clear the reconnect timer, close the
socket (normal code 1000) after removing its handlers, reset counters.  The
handlers are removed before closing, so no disconnect callback is produced
here. -/
def disconnect (s : St) : St × List Out :=
  let o1 : List Out := if s.reconnectTimeout.isSome then [Out.timerCleared] else []
  let o2 : List Out :=
    if s.ws = some ReadyState.OPEN ∨ s.ws = some ReadyState.CONNECTING then
      [Out.wsClose (some 1000)]
    else []
  ({ s with shouldReconnect := false, reconnectTimeout := none, ws := none,
            isConnecting := false, reconnectAttempts := 0 }, o1 ++ o2)

/-- sendAudio(buffer): a console warning and silent return when destroyed or
not connected; otherwise one binary transport write. -/
def sendAudio (s : St) : St × List Out :=
  if s.isDestroyed || !isConnected s then (s, []) else (s, [Out.wsSendBin])

/-- stopReconnecting(). -/
def stopReconnecting (s : St) : St × List Out :=
  let o1 : List Out := if s.reconnectTimeout.isSome then [Out.timerCleared] else []
  ({ s with shouldReconnect := false, reconnectTimeout := none }, o1)

/-- Two consecutive connect calls, with the trace concatenated. -/
def twoConnects (url : String) (s : St) : List Out :=
  (connect url s).2 ++ (connect url (connect url s).1).2

/-- A run of n consecutive abnormal closures (close code 1006). -/
def closesRun (s : St) : Nat → St × List Out
  | 0 => (s, [])
  | n + 1 =>
      ((closesRun (onClose 1006 s).1 n).1,
       (onClose 1006 s).2 ++ (closesRun (onClose 1006 s).1 n).2)

/-- The fresh state with an open socket, as after a successful connect. -/
def openSt : St := { initSt with ws := some ReadyState.OPEN }

end AudioSvc

namespace WsSvc

/-- Shape of a parsed inbound control message of `ws-service.ts`
(`WebSocketMessage`), with payloads abstracted to the fields the dispatcher
reads. -/
structure Msg where
  type : String
  partner : Option String
  message : Option String
  reason : Option String
  stats : Option Nat
deriving DecidableEq

/-- State of the `WebSocketService` in `ws-service.ts`. -/
structure St where
  ws : Option ReadyState
  isConnected : Bool
  reconnectAttempts : Nat
  reconnectTimeout : Option Nat
  hasProfile : Bool
deriving DecidableEq

/-- maxReconnectAttempts field value. -/
def maxReconnectAttempts : Nat := 3

/-- The hard-coded server address. -/
def wsUrl : String := "wss://ultimate-polliwog-climbing.ngrok-free.app/ws"

/-- Fresh singleton state. -/
def initSt : St :=
  { ws := none, isConnected := false, reconnectAttempts := 0,
    reconnectTimeout := none, hasProfile := false }

/-- connect(): resolves immediately only when the connected flag is set and
the socket is open; otherwise opens a new socket and arms the 10 s
connection-attempt timeout. -/
def connect (s : St) : St × List Out :=
  if s.isConnected = true ∧ s.ws = some ReadyState.OPEN then (s, [Out.promiseResolve])
  else ({ s with ws := some ReadyState.CONNECTING },
        [Out.wsOpen wsUrl, Out.timerSet 10000])

/-- The onopen handler: clears the connection timeout, resets the retry
counter, emits connect and resolves the connect promise. -/
def onOpen (s : St) : St × List Out :=
  ({ s with ws := some ReadyState.OPEN, isConnected := true, reconnectAttempts := 0 },
   [Out.timerCleared, Out.emitE "connect" none,
    Out.logMsg "✅ Connected to dating server", Out.promiseResolve])

/-- The connection-timeout callback: when the socket is not open, close it and
reject the connect promise.  No error event is emitted here. -/
def connTimeoutFire (s : St) : St × List Out :=
  if s.ws = some ReadyState.OPEN then (s, [])
  else (s, (if s.ws.isSome then [Out.wsClose none] else []) ++
           [Out.promiseReject "Connection timeout"])

/-- attemptReconnect(): an error event once the budget is exhausted, otherwise
increment the counter and arm the backoff timer (the source computes 2 to the
power of the incremented counter). -/
def attemptReconnect (s : St) : St × List Out :=
  if maxReconnectAttempts ≤ s.reconnectAttempts then
    (s, [Out.emitE "error" (some "Failed to reconnect after multiple attempts")])
  else
    let n := s.reconnectAttempts + 1
    let d := min (1000 * 2 ^ n) (2 * 60 * 1000)
    ({ s with reconnectAttempts := n, reconnectTimeout := some d },
     [Out.logMsg "🔄 Reconnecting", Out.timerSet d])

/-- handleDisconnection (the onclose handler): emit disconnect, then attempt a
reconnect on an abnormal code. -/
def handleDisconnection (code : Nat) (s : St) : St × List Out :=
  let s1 := { s with isConnected := false, ws := some ReadyState.CLOSED }
  if code ≠ 1000 then
    ((attemptReconnect s1).1,
     Out.emitE "disconnect" none :: Out.logMsg "💔 Connection lost" :: (attemptReconnect s1).2)
  else (s1, [Out.emitE "disconnect" none, Out.logMsg "💔 Disconnected from dating server"])

/-- disconnect(): clear the reconnect timer, best-effort end_session control
message (an error event when the socket is not open), close, reset state and
emit a disconnect event unconditionally. -/
def disconnect (s : St) : St × List Out :=
  let o1 : List Out := if s.reconnectTimeout.isSome then [Out.timerCleared] else []
  let o2 : List Out :=
    if s.ws.isSome then
      (if s.ws = some ReadyState.OPEN then [Out.wsSendTxt "end_session"]
       else [Out.emitE "error" (some "Not connected to server")]) ++ [Out.wsClose none]
    else []
  ({ s with reconnectTimeout := none, ws := none, isConnected := false, hasProfile := false },
   o1 ++ o2 ++ [Out.emitE "disconnect" none, Out.logMsg "👋 Disconnected from dating server"])

/-- Argument forms accepted by sendAudio. -/
inductive AudioArg where
  | buffer (bytes : Bytes)
  | b64 (s : List Char)

/-- sendAudio(audioData): an error event plus a thrown error when the socket is
not open; otherwise convert if needed and perform one binary write. -/
def sendAudio (s : St) (a : AudioArg) : St × List Out :=
  if s.ws ≠ some ReadyState.OPEN then
    (s, [Out.emitE "error" (some "Cannot send audio: not connected"),
         Out.throwErr "WebSocket not connected"])
  else
    match a with
    | AudioArg.buffer _ => (s, [Out.wsSendBin, Out.logMsg "📤 Sent voice message"])
    | AudioArg.b64 str =>
        match base64ToArrayBuffer str with
        | some _ => (s, [Out.wsSendBin, Out.logMsg "📤 Sent voice message"])
        | none => (s, [Out.emitE "error" (some "Failed to send audio"),
                       Out.throwErr "Failed to send audio"])

/-- handleJsonMessage: dispatch on the type discriminator. -/
def handleJsonMessage (m : Msg) : List Out :=
  if m.type = "connected" then [Out.logMsg (m.message.getD "✅ Connected to server")]
  else if m.type = "match_found" then
    match m.partner with
    | some p => [Out.emitE "match_found" (some p), Out.logMsg "💖 Matched"]
    | none => []
  else if m.type = "match_ended" then
    [Out.emitE "match_ended" m.reason, Out.logMsg "💔 Match ended"]
  else if m.type = "partner_disconnected" then
    [Out.emitE "partner_disconnected" none,
     Out.emitE "match_ended" (some "Partner disconnected"),
     Out.logMsg "😔 Partner disconnected"]
  else if m.type = "no_matches" then
    [Out.emitE "no_matches" none, Out.logMsg "😔 No matches available, retrying..."]
  else if m.type = "stats_update" then
    match m.stats with
    | some n => [Out.emitE "stats_update" (some (toString n))]
    | none => []
  else if m.type = "error" then
    [Out.emitE "error" (some (m.message.getD "Server error")),
     Out.logMsg "❌ Server error"]
  else []

/-- Inbound wire data shapes seen by handleMessage. -/
inductive WireDatum where
  | bin (bytes : Bytes)
  | text (s : String)

/-- handleMessage, parameterised by the environment JSON parser: binary frames
become audio_received events; text payloads are parsed as JSON and dispatched;
on a parse failure, long payloads (length strictly greater than 1000) are
treated as base64 audio and short ones raise an invalid-format error event. -/
def handleMessage (parse : String → Option Msg) (d : WireDatum) : List Out :=
  match d with
  | WireDatum.bin bytes =>
      [Out.emitE "audio_received" ((arrayBufferToBase64 bytes).map fun l => String.mk l),
       Out.logMsg "📥 Received voice message"]
  | WireDatum.text str =>
      match parse str with
      | some m => handleJsonMessage m
      | none =>
          if str.length > 1000 then
            [Out.emitE "audio_received" (some str),
             Out.logMsg "📥 Received voice message (string format)"]
          else [Out.emitE "error" (some "Invalid message format")]

/-- Two consecutive disconnect calls, with the trace concatenated. -/
def twoDisconnects (s : St) : List Out :=
  (disconnect s).2 ++ (disconnect (disconnect s).1).2

end WsSvc

/-- The 1000-character non-JSON payload used as a boundary input. -/
def payload1000 : String := String.mk (List.replicate 1000 'x')

/-! Helper lemmas about the base64 model. -/

theorem decodeChar_b64chr : ∀ s, s < 64 → decodeChar (b64chr s) = some s := by decide

theorem b64chr_ne_pad : ∀ s, s < 64 → b64chr s ≠ '=' := by decide

theorem b64chr_ne_colon (s : Nat) : b64chr s ≠ ':' := by
  by_cases h : s < 64
  · exact (by decide : ∀ t, t < 64 → b64chr t ≠ ':') s h
  · unfold b64chr
    rw [List.getD_eq_default]
    · decide
    · have h64 : b64alphabet.length = 64 := by decide
      omega

theorem colon_not_mem_b64encode : ∀ (n : Nat) (B : Bytes), B.length ≤ n →
    ':' ∉ b64encode B := by
  intro n
  induction n with
  | zero =>
      intro B hlen
      have hB : B = [] := List.eq_nil_of_length_eq_zero (Nat.le_zero.mp hlen)
      subst hB
      simp [b64encode]
  | succ n ih =>
      intro B hlen
      match B with
      | [] => simp [b64encode]
      | [a] =>
          simp only [b64encode, List.mem_cons, List.not_mem_nil, or_false]
          push_neg
          refine ⟨?_, ?_, by decide, by decide⟩
          · exact fun h => (b64chr_ne_colon _) h.symm
          · exact fun h => (b64chr_ne_colon _) h.symm
      | [a, b] =>
          simp only [b64encode, List.mem_cons, List.not_mem_nil, or_false]
          push_neg
          refine ⟨?_, ?_, ?_, by decide⟩
          · exact fun h => (b64chr_ne_colon _) h.symm
          · exact fun h => (b64chr_ne_colon _) h.symm
          · exact fun h => (b64chr_ne_colon _) h.symm
      | a :: b :: c :: rest =>
          have hrest : rest.length ≤ n := by
            simp only [List.length_cons] at hlen
            omega
          simp only [b64encode, List.mem_cons]
          push_neg
          refine ⟨?_, ?_, ?_, ?_, ih rest hrest⟩
          · exact fun h => (b64chr_ne_colon _) h.symm
          · exact fun h => (b64chr_ne_colon _) h.symm
          · exact fun h => (b64chr_ne_colon _) h.symm
          · exact fun h => (b64chr_ne_colon _) h.symm

theorem stripDataUri_of_no_colon {l : List Char} (h : ':' ∉ l) : stripDataUri l = l := by
  unfold stripDataUri
  rw [if_neg]
  intro heq
  apply h
  have hmem : ':' ∈ l.take 11 := by rw [heq]; decide
  exact List.take_subset _ _ hmem

theorem bytesToBinary_eq : ∀ (n : Nat) (B : Bytes), B.length ≤ n → bytesToBinary B = B := by
  intro n
  induction n with
  | zero =>
      intro B hlen
      have hB : B = [] := List.eq_nil_of_length_eq_zero (Nat.le_zero.mp hlen)
      subst hB
      rw [bytesToBinary]
      simp
  | succ n ih =>
      intro B hlen
      rw [bytesToBinary]
      by_cases hB : B = []
      · simp [hB]
      · rw [dif_neg hB]
        have hdrop : (B.drop 32768).length ≤ n := by
          simp only [List.length_drop]
          have := List.length_pos.mpr hB
          omega
        rw [ih _ hdrop, List.take_append_drop]

theorem take4_cons {α : Type} (x1 x2 x3 x4 : α) (E : List α) (k : Nat) :
    (x1 :: x2 :: x3 :: x4 :: E).take (4 * (k + 1)) = x1 :: x2 :: x3 :: x4 :: E.take (4 * k) := by
  have h : 4 * (k + 1) = 4 * k + 1 + 1 + 1 + 1 := by ring
  rw [h, List.take_succ_cons, List.take_succ_cons, List.take_succ_cons, List.take_succ_cons]

theorem take3_cons {α : Type} (x1 x2 x3 : α) (E : List α) (k : Nat) :
    (x1 :: x2 :: x3 :: E).take (3 * (k + 1)) = x1 :: x2 :: x3 :: E.take (3 * k) := by
  have h : 3 * (k + 1) = 3 * k + 1 + 1 + 1 := by ring
  rw [h, List.take_succ_cons, List.take_succ_cons, List.take_succ_cons]

theorem b64encode_eq_nil_iff (B : Bytes) : b64encode B = [] ↔ B = [] := by
  rcases B with _ | ⟨a, B1⟩
  · simp [b64encode]
  rcases B1 with _ | ⟨b, B2⟩
  · simp [b64encode]
  rcases B2 with _ | ⟨c, rest⟩
  · simp [b64encode]
  · simp [b64encode]

theorem b64encode_length_le : ∀ (n : Nat) (B : Bytes), B.length ≤ n →
    (b64encode B).length ≤ 4 * B.length := by
  intro n
  induction n with
  | zero =>
      intro B hlen
      have hB : B = [] := List.eq_nil_of_length_eq_zero (Nat.le_zero.mp hlen)
      subst hB
      simp [b64encode]
  | succ n ih =>
      intro B hlen
      rcases B with _ | ⟨a, B1⟩
      · simp [b64encode]
      rcases B1 with _ | ⟨b, B2⟩
      · simp only [b64encode, List.length_cons, List.length_nil]
        omega
      rcases B2 with _ | ⟨c, rest⟩
      · simp only [b64encode, List.length_cons, List.length_nil]
        omega
      · have h' : rest.length ≤ n := by
          simp only [List.length_cons] at hlen
          omega
        have := ih rest h'
        simp only [b64encode, List.length_cons]
        omega

theorem b64decodeLoop_take :
    ∀ (n : Nat) (B : Bytes), B.length ≤ n → (∀ x ∈ B, x < 256) →
      ∀ k, b64decodeLoop ((b64encode B).take (4 * k)) = some (B.take (3 * k)) := by
  intro n
  induction n with
  | zero =>
      intro B hlen _ k
      have hB : B = [] := List.eq_nil_of_length_eq_zero (Nat.le_zero.mp hlen)
      subst hB
      simp [b64encode, b64decodeLoop]
  | succ n ih =>
      intro B hlen hlt k
      cases k with
      | zero => simp [b64decodeLoop]
      | succ k =>
        rcases B with _ | ⟨a, B1⟩
        · simp [b64encode, b64decodeLoop]
        rcases B1 with _ | ⟨b, B2⟩
        · -- singleton buffer: the final group carries two padding characters
          have ha : a < 256 := hlt a (by simp)
          have hL : (b64encode [a]).take (4 * (k + 1)) = b64encode [a] :=
            List.take_of_length_le (by simp [b64encode])
          have hR : ([a] : Bytes).take (3 * (k + 1)) = [a] :=
            List.take_of_length_le (by simp only [List.length_cons, List.length_nil]; omega)
          have d1 := decodeChar_b64chr (a / 4) (by omega)
          have d2 := decodeChar_b64chr (a % 4 * 16) (by omega)
          rw [hL, hR]
          show b64decodeLoop [b64chr (a / 4), b64chr (a % 4 * 16), '=', '='] = some [a]
          simp [b64decodeLoop, d1, d2]
          omega
        rcases B2 with _ | ⟨c, rest⟩
        · -- two-byte buffer: the final group carries one padding character
          have ha : a < 256 := hlt a (by simp)
          have hb : b < 256 := hlt b (by simp)
          have hL : (b64encode [a, b]).take (4 * (k + 1)) = b64encode [a, b] :=
            List.take_of_length_le (by simp [b64encode])
          have hR : ([a, b] : Bytes).take (3 * (k + 1)) = [a, b] :=
            List.take_of_length_le (by simp only [List.length_cons, List.length_nil]; omega)
          have d1 := decodeChar_b64chr (a / 4) (by omega)
          have d2 := decodeChar_b64chr (a % 4 * 16 + b / 16) (by omega)
          have d3 := decodeChar_b64chr (b % 16 * 4) (by omega)
          have hx3 : b64chr (b % 16 * 4) ≠ '=' := b64chr_ne_pad _ (by omega)
          rw [hL, hR]
          show b64decodeLoop
              [b64chr (a / 4), b64chr (a % 4 * 16 + b / 16), b64chr (b % 16 * 4), '='] =
            some [a, b]
          simp [b64decodeLoop, d1, d2, d3, hx3]
          omega
        · -- a full three-byte group followed by the rest of the buffer
          have ha : a < 256 := hlt a (by simp)
          have hb : b < 256 := hlt b (by simp)
          have hc : c < 256 := hlt c (by simp)
          have hlen' : rest.length ≤ n := by
            simp only [List.length_cons] at hlen
            omega
          have hlt' : ∀ x ∈ rest, x < 256 := fun x hx => hlt x (by simp [hx])
          have d1 := decodeChar_b64chr (a / 4) (by omega)
          have d2 := decodeChar_b64chr (a % 4 * 16 + b / 16) (by omega)
          have d3 := decodeChar_b64chr (b % 16 * 4 + c / 64) (by omega)
          have d4 := decodeChar_b64chr (c % 64) (by omega)
          have hx3 : b64chr (b % 16 * 4 + c / 64) ≠ '=' := b64chr_ne_pad _ (by omega)
          have hx4 : b64chr (c % 64) ≠ '=' := b64chr_ne_pad _ (by omega)
          show b64decodeLoop
              ((b64chr (a / 4) :: b64chr (a % 4 * 16 + b / 16) ::
                b64chr (b % 16 * 4 + c / 64) :: b64chr (c % 64) ::
                b64encode rest).take (4 * (k + 1))) =
            some ((a :: b :: c :: rest).take (3 * (k + 1)))
          rw [take4_cons, take3_cons]
          cases hE : (b64encode rest).take (4 * k) with
          | nil =>
              have hrtake : rest.take (3 * k) = [] := by
                rcases List.take_eq_nil_iff.mp hE with h0 | hnil
                · have hk0 : k = 0 := by omega
                  subst hk0
                  simp
                · have hr0 : rest = [] := (b64encode_eq_nil_iff rest).mp hnil
                  subst hr0
                  simp
              rw [hrtake]
              simp [b64decodeLoop, d1, d2, d3, d4, hx3, hx4]
              omega
          | cons z zs =>
              have hIH := ih rest hlen' hlt' k
              rw [hE] at hIH
              simp [b64decodeLoop, d1, d2, d3, d4, hIH]
              omega

theorem b64decode_encode (B : Bytes) (h : ∀ x ∈ B, x < 256) :
    b64decodeLoop (b64encode B) = some B := by
  have h1 := b64decodeLoop_take B.length B le_rfl h B.length
  have hL : (b64encode B).take (4 * B.length) = b64encode B :=
    List.take_of_length_le (b64encode_length_le B.length B le_rfl)
  have hR : B.take (3 * B.length) = B := List.take_of_length_le (by omega)
  rw [hL, hR] at h1
  exact h1

theorem countOpens_append (l1 l2 : List Out) :
    countOpens (l1 ++ l2) = countOpens l1 + countOpens l2 :=
  List.countP_append _ _ _

/-- audio-service connect is a state-and-trace no-op whenever an attempt is in
flight or the socket is already connecting or open. -/
theorem audioConnect_noop (url : String) (s : AudioSvc.St)
    (h : s.isConnecting = true ∨ s.ws = some ReadyState.CONNECTING ∨
         s.ws = some ReadyState.OPEN) :
    AudioSvc.connect url s = (s, []) := by
  rcases h with h | h | h
  · cases hd : s.isDestroyed <;> simp [AudioSvc.connect, hd, h]
  · cases hd : s.isDestroyed <;> cases hic : s.isConnecting <;>
      simp [AudioSvc.connect, hd, hic, h]
  · cases hd : s.isDestroyed <;> cases hic : s.isConnecting <;>
      simp [AudioSvc.connect, hd, hic, h]

/-- audio-service connect either does nothing or opens exactly one transport
and leaves the connecting flag set. -/
theorem audioConnect_cases (url : String) (s : AudioSvc.St) :
    AudioSvc.connect url s = (s, []) ∨
      (countOpens (AudioSvc.connect url s).2 = 1 ∧
       (AudioSvc.connect url s).1.isConnecting = true) := by
  unfold AudioSvc.connect
  split_ifs with h1 h2 h3
  · exact Or.inl rfl
  · exact Or.inl rfl
  · exact Or.inl rfl
  all_goals
    right
    refine ⟨?_, rfl⟩
    simp [countOpens, List.countP_append, List.countP_cons, List.countP_nil]

/-- C1: decoding the base64 encoding of any byte buffer yields the buffer
byte-for-byte: base64ToArrayBuffer composed with arrayBufferToBase64 is the
identity on buffers, independent of any audio container format. -/
theorem C1_base64_round_trip (B : Bytes) (h : ∀ x ∈ B, x < 256) :
    (arrayBufferToBase64 B).bind base64ToArrayBuffer = some B := by
  have hbin : bytesToBinary B = B := bytesToBinary_eq B.length B le_rfl
  have hall : B.all (fun b => decide (b < 256)) = true :=
    List.all_eq_true.mpr fun b hb => decide_eq_true (h b hb)
  unfold arrayBufferToBase64 btoaJS
  rw [hbin, if_pos hall]
  show base64ToArrayBuffer (b64encode B) = some B
  unfold base64ToArrayBuffer atobJS
  rw [stripDataUri_of_no_colon (colon_not_mem_b64encode B.length B le_rfl)]
  exact b64decode_encode B h

/-- Witness for C1 at a concrete buffer. -/
theorem C1_base64_round_trip_witness :
    (∀ x ∈ ([82, 255, 0, 7] : Bytes), x < 256) ∧
      (arrayBufferToBase64 [82, 255, 0, 7]).bind base64ToArrayBuffer =
        some [82, 255, 0, 7] :=
  ⟨by decide, C1_base64_round_trip [82, 255, 0, 7] (by decide)⟩

/-- C10: a partner_disconnected control message makes the dispatcher emit a
partner_disconnected event and then a match_ended event carrying the reason
Partner disconnected, in that order. -/
theorem C10_partner_disconnected (m : WsSvc.Msg)
    (h : m.type = "partner_disconnected") :
    WsSvc.handleJsonMessage m =
      [Out.emitE "partner_disconnected" none,
       Out.emitE "match_ended" (some "Partner disconnected"),
       Out.logMsg "😔 Partner disconnected"] := by
  unfold WsSvc.handleJsonMessage
  rw [h, if_neg (by decide), if_neg (by decide), if_neg (by decide), if_pos rfl]

/-- Witness for C10 at a concrete message. -/
theorem C10_partner_disconnected_witness :
    WsSvc.handleJsonMessage
        { type := "partner_disconnected", partner := none, message := none,
          reason := none, stats := none } =
      [Out.emitE "partner_disconnected" none,
       Out.emitE "match_ended" (some "Partner disconnected"),
       Out.logMsg "😔 Partner disconnected"] :=
  C10_partner_disconnected _ rfl

set_option maxRecDepth 8000 in
/-- C7 counterexample: a 1000-character non-JSON payload is rejected with the
invalid-format error event, although the claim requires payloads of length at
least 1000 to be treated as base64 audio. -/
theorem C7_counterexample :
    payload1000.length = 1000 ∧
      WsSvc.handleMessage (fun _ => none) (WsSvc.WireDatum.text payload1000) =
        [Out.emitE "error" (some "Invalid message format")] := by
  constructor
  · rfl
  · rfl

/-- C7 (amended): on a JSON parse failure the audio fallback threshold is
strict — payloads strictly longer than 1000 characters are emitted as
audio_received, payloads of length at most 1000 (including exactly 1000)
raise the invalid-format error event and are dropped. -/
theorem C7_text_fallback_amended (parse : String → Option WsSvc.Msg) (s : String)
    (hp : parse s = none) :
    (1000 < s.length →
      WsSvc.handleMessage parse (WsSvc.WireDatum.text s) =
        [Out.emitE "audio_received" (some s),
         Out.logMsg "📥 Received voice message (string format)"]) ∧
    (s.length ≤ 1000 →
      WsSvc.handleMessage parse (WsSvc.WireDatum.text s) =
        [Out.emitE "error" (some "Invalid message format")]) := by
  simp only [WsSvc.handleMessage]
  rw [hp]
  constructor
  · intro h
    rw [if_pos h]
  · intro h
    rw [if_neg (by omega)]

/-- Witness for C7 at concrete payloads on both sides of the threshold. -/
theorem C7_text_fallback_amended_witness :
    WsSvc.handleMessage (fun _ => none) (WsSvc.WireDatum.text "ab") =
      [Out.emitE "error" (some "Invalid message format")] :=
  (C7_text_fallback_amended (fun _ => none) "ab" rfl).2 (by decide)

/-- C9 counterexample: in audio-service, sendAudio in the fresh (Idle) state
performs no transport write but also raises no NotConnected failure — the
observable trace is empty. -/
theorem C9_counterexample :
    AudioSvc.initSt.ws ≠ some ReadyState.OPEN ∧
      AudioSvc.sendAudio AudioSvc.initSt = (AudioSvc.initSt, []) := by
  constructor
  · decide
  · rfl

/-- C9 (amended): outside the Open state, ws-service sendAudio emits the
not-connected error event and throws, without touching the transport, while
audio-service sendAudio returns silently with an empty trace (no error, no
write). -/
theorem C9_send_audio_amended :
    (∀ (s : WsSvc.St) (a : WsSvc.AudioArg), s.ws ≠ some ReadyState.OPEN →
      WsSvc.sendAudio s a =
        (s, [Out.emitE "error" (some "Cannot send audio: not connected"),
             Out.throwErr "WebSocket not connected"])) ∧
    (∀ s : AudioSvc.St, s.isDestroyed = true ∨ s.ws ≠ some ReadyState.OPEN →
      AudioSvc.sendAudio s = (s, [])) := by
  constructor
  · intro s a h
    unfold WsSvc.sendAudio
    rw [if_pos h]
  · intro s h
    unfold AudioSvc.sendAudio AudioSvc.isConnected
    rcases h with h | h
    · simp [h]
    · have hb : (s.ws == some ReadyState.OPEN) = false := by
        simpa using h
      simp [hb]

/-- Witness for C9 at the fresh states of both services. -/
theorem C9_send_audio_amended_witness :
    WsSvc.sendAudio WsSvc.initSt (WsSvc.AudioArg.buffer [1]) =
        (WsSvc.initSt, [Out.emitE "error" (some "Cannot send audio: not connected"),
                        Out.throwErr "WebSocket not connected"]) ∧
      AudioSvc.sendAudio AudioSvc.initSt = (AudioSvc.initSt, []) :=
  ⟨(C9_send_audio_amended).1 WsSvc.initSt (WsSvc.AudioArg.buffer [1]) (by decide),
   (C9_send_audio_amended).2 AudioSvc.initSt (Or.inr (by decide))⟩

/-- C4 counterexample: two consecutive ws-service disconnect calls from the
fresh state emit two disconnect events in total, not one. -/
theorem C4_counterexample :
    countEmit "disconnect" (WsSvc.twoDisconnects WsSvc.initSt) = 2 := by decide

/-- C4 (amended): each ws-service disconnect call emits exactly one disconnect
event (so two calls emit two) and clears the reconnect timer; audio-service
disconnect emits no disconnect callback at all (handlers are removed before
closing) and clears the reconnect timer. -/
theorem C4_disconnect_amended :
    (∀ s : WsSvc.St, countEmit "disconnect" (WsSvc.disconnect s).2 = 1 ∧
      (WsSvc.disconnect s).1.reconnectTimeout = none) ∧
    (∀ s : AudioSvc.St, countCbDisconnect (AudioSvc.disconnect s).2 = 0 ∧
      (AudioSvc.disconnect s).1.reconnectTimeout = none) := by
  constructor
  · intro s
    refine ⟨?_, rfl⟩
    unfold WsSvc.disconnect
    cases hT : s.reconnectTimeout.isSome <;> cases hW : s.ws.isSome <;>
      by_cases hO : s.ws = some ReadyState.OPEN <;>
        simp [hT, hW, hO, countEmit, List.countP_append, List.countP_cons, List.countP_nil]
  · intro s
    refine ⟨?_, rfl⟩
    unfold AudioSvc.disconnect
    cases hT : s.reconnectTimeout.isSome <;>
      by_cases hO : s.ws = some ReadyState.OPEN ∨ s.ws = some ReadyState.CONNECTING <;>
        simp [hT, hO, countCbDisconnect, List.countP_append, List.countP_cons,
              List.countP_nil]

/-- C3 counterexample: ws-service connect is not guarded while Connecting —
from a state whose socket is CONNECTING, two consecutive connect calls issue
two transport opens. -/
theorem C3_counterexample :
    (WsSvc.connect WsSvc.initSt).1.ws = some ReadyState.CONNECTING ∧
      countOpens ((WsSvc.connect (WsSvc.connect WsSvc.initSt).1).2 ++
        (WsSvc.connect (WsSvc.connect (WsSvc.connect WsSvc.initSt).1).1).2) = 2 := by
  decide

/-- C3 (amended): audio-service connect is a no-op while already Connecting or
Open and two consecutive calls issue at most one transport open; ws-service
connect is a no-op only when the connected flag is set with an Open socket,
so a second call made while Connecting opens another transport. -/
theorem C3_connect_idempotent_amended :
    (∀ (url : String) (s : AudioSvc.St),
      s.isConnecting = true ∨ s.ws = some ReadyState.CONNECTING ∨
        s.ws = some ReadyState.OPEN →
      AudioSvc.connect url s = (s, [])) ∧
    (∀ (url : String) (s : AudioSvc.St), countOpens (AudioSvc.twoConnects url s) ≤ 1) ∧
    (∀ s : WsSvc.St, s.isConnected = true → s.ws = some ReadyState.OPEN →
      WsSvc.connect s = (s, [Out.promiseResolve])) := by
  refine ⟨fun url s h => audioConnect_noop url s h, fun url s => ?_, fun s h1 h2 => ?_⟩
  · unfold AudioSvc.twoConnects
    rw [countOpens_append]
    rcases audioConnect_cases url s with h | ⟨h1, h2⟩
    · simp only [h]
      simp [countOpens]
    · have h3 := audioConnect_noop url (AudioSvc.connect url s).1 (Or.inl h2)
      rw [h3, h1]
      simp [countOpens]
  · unfold WsSvc.connect
    rw [if_pos ⟨h1, h2⟩]

/-- Witness for C3 at concrete already-connected states. -/
theorem C3_connect_idempotent_amended_witness :
    AudioSvc.connect "wss://a" AudioSvc.openSt = (AudioSvc.openSt, []) ∧
      WsSvc.connect { WsSvc.initSt with isConnected := true, ws := some ReadyState.OPEN } =
        ({ WsSvc.initSt with isConnected := true, ws := some ReadyState.OPEN },
         [Out.promiseResolve]) :=
  ⟨(C3_connect_idempotent_amended).1 "wss://a" AudioSvc.openSt (Or.inr (Or.inr rfl)),
   (C3_connect_idempotent_amended).2.2 _ rfl rfl⟩

/-- C2 counterexample: the first ws-service reconnection attempt is scheduled
with a 2000 ms delay, not the 1000 ms demanded by the claim formula for
attempt one. -/
theorem C2_counterexample :
    (WsSvc.attemptReconnect WsSvc.initSt).1.reconnectAttempts = 1 ∧
      (WsSvc.attemptReconnect WsSvc.initSt).2 =
        [Out.logMsg "🔄 Reconnecting", Out.timerSet 2000] ∧
      min (1000 * 2 ^ (1 - 1)) 120000 = 1000 := by decide

/-- C2 (amended): for reconnection attempt n (the post-increment counter
value), audio-service schedules min of 1000 times 2 to the n minus 1 and
120000 ms, while ws-service schedules min of 1000 times 2 to the n and
120000 ms. -/
theorem C2_reconnect_delay_amended :
    (∀ s : AudioSvc.St, s.isDestroyed = false → s.shouldReconnect = true →
      s.reconnectAttempts < AudioSvc.maxReconnectAttempts →
      (AudioSvc.scheduleReconnect s).1.reconnectAttempts = s.reconnectAttempts + 1 ∧
      Out.timerSet (min (1000 * 2 ^ (s.reconnectAttempts + 1 - 1)) 120000) ∈
        (AudioSvc.scheduleReconnect s).2 ∧
      countTimers (AudioSvc.scheduleReconnect s).2 = 1) ∧
    (∀ s : WsSvc.St, s.reconnectAttempts < WsSvc.maxReconnectAttempts →
      (WsSvc.attemptReconnect s).1.reconnectAttempts = s.reconnectAttempts + 1 ∧
      Out.timerSet (min (1000 * 2 ^ (s.reconnectAttempts + 1)) 120000) ∈
        (WsSvc.attemptReconnect s).2 ∧
      countTimers (WsSvc.attemptReconnect s).2 = 1) := by
  constructor
  · intro s h1 h2 h3
    have hg : ¬(s.isDestroyed = true ∨ s.shouldReconnect = false ∨
        AudioSvc.maxReconnectAttempts ≤ s.reconnectAttempts) := by
      push_neg
      refine ⟨by simp [h1], by simp [h2], ?_⟩
      simp only [AudioSvc.maxReconnectAttempts] at h3 ⊢
      omega
    unfold AudioSvc.scheduleReconnect
    rw [if_neg hg]
    refine ⟨rfl, ?_, ?_⟩
    · cases hT : s.reconnectTimeout.isSome <;>
        simp [hT, AudioSvc.reconnectDelay]
    · cases hT : s.reconnectTimeout.isSome <;>
        simp [hT, countTimers, List.countP_append, List.countP_cons, List.countP_nil]
  · intro s h3
    have hg : ¬(WsSvc.maxReconnectAttempts ≤ s.reconnectAttempts) := by
      simp only [WsSvc.maxReconnectAttempts] at h3 ⊢
      omega
    unfold WsSvc.attemptReconnect
    rw [if_neg hg]
    refine ⟨rfl, ?_, ?_⟩
    · simp
    · simp [countTimers, List.countP_cons, List.countP_nil]

/-- Witness for C2 at the fresh states (first reconnection attempt). -/
theorem C2_reconnect_delay_amended_witness :
    ((AudioSvc.scheduleReconnect AudioSvc.initSt).1.reconnectAttempts =
        AudioSvc.initSt.reconnectAttempts + 1 ∧
      Out.timerSet (min (1000 * 2 ^ (AudioSvc.initSt.reconnectAttempts + 1 - 1)) 120000) ∈
        (AudioSvc.scheduleReconnect AudioSvc.initSt).2 ∧
      countTimers (AudioSvc.scheduleReconnect AudioSvc.initSt).2 = 1) ∧
    ((WsSvc.attemptReconnect WsSvc.initSt).1.reconnectAttempts =
        WsSvc.initSt.reconnectAttempts + 1 ∧
      Out.timerSet (min (1000 * 2 ^ (WsSvc.initSt.reconnectAttempts + 1)) 120000) ∈
        (WsSvc.attemptReconnect WsSvc.initSt).2 ∧
      countTimers (WsSvc.attemptReconnect WsSvc.initSt).2 = 1) :=
  ⟨(C2_reconnect_delay_amended).1 AudioSvc.initSt rfl rfl (by decide),
   (C2_reconnect_delay_amended).2 WsSvc.initSt (by decide)⟩

/-- C5 counterexample: after exactly maxRetries (five) consecutive abnormal
closures from the fresh open state, no maxRetryExceeded notification has fired
(it first fires on the sixth), and a run of seven abnormal closures fires it
twice, not exactly once. -/
theorem C5_counterexample :
    countMaxRetry (AudioSvc.closesRun AudioSvc.openSt 5).2 = 0 ∧
      countMaxRetry (AudioSvc.closesRun AudioSvc.openSt 7).2 = 2 := by decide

/-- C5 (amended): the first five abnormal closures each schedule a reconnect
timer and fire no maxRetryExceeded; the sixth fires it exactly once and
schedules no timer; once the retry counter has reached the budget, an abnormal
closure never schedules a reconnect timer; and connect never changes the retry
counter. -/
theorem C5_max_retry_amended :
    countMaxRetry (AudioSvc.closesRun AudioSvc.openSt 5).2 = 0 ∧
      countTimers (AudioSvc.closesRun AudioSvc.openSt 5).2 = 5 ∧
      (AudioSvc.onClose 1006 (AudioSvc.closesRun AudioSvc.openSt 5).1).2 =
        [Out.cbDisconnect, Out.cbMaxRetryExceeded 5] ∧
      (∀ (s : AudioSvc.St) (code : Nat),
        AudioSvc.maxReconnectAttempts ≤ s.reconnectAttempts →
        countTimers (AudioSvc.onClose code s).2 = 0) ∧
      (∀ (url : String) (s : AudioSvc.St),
        (AudioSvc.connect url s).1.reconnectAttempts = s.reconnectAttempts) := by
  refine ⟨by decide, by decide, by decide, ?_, ?_⟩
  · intro s code h
    unfold AudioSvc.onClose
    by_cases hd : s.isDestroyed = true
    · rw [if_pos hd]
      rfl
    · rw [if_neg hd]
      have hng : ¬(code ≠ 1000 ∧ s.shouldReconnect = true ∧
          s.reconnectAttempts < AudioSvc.maxReconnectAttempts) := by
        rintro ⟨-, -, hlt⟩
        omega
      rw [if_neg hng]
      by_cases h2 : code ≠ 1000 ∧ AudioSvc.maxReconnectAttempts ≤ s.reconnectAttempts
      · rw [if_pos h2]
        rfl
      · rw [if_neg h2]
        rfl
  · intro url s
    unfold AudioSvc.connect
    split_ifs <;> rfl

/-- Witness for C5 at a concrete exhausted state. -/
theorem C5_max_retry_amended_witness :
    countTimers (AudioSvc.onClose 1006
        { AudioSvc.openSt with reconnectAttempts := 5 }).2 = 0 :=
  (C5_max_retry_amended).2.2.2.1 { AudioSvc.openSt with reconnectAttempts := 5 } 1006
    (by decide)

/-- C6 counterexample: audio-service connect arms no connection-attempt timer
at all (its trace is the lone transport open), and the ws-service 10 s timeout
callback rejects the connect promise without emitting any error event. -/
theorem C6_counterexample :
    countTimers (AudioSvc.connect "wss://relay.example/ws" AudioSvc.initSt).2 = 0 ∧
      (AudioSvc.connect "wss://relay.example/ws" AudioSvc.initSt).2 =
        [Out.wsOpen "wss://relay.example/ws"] ∧
      countEmit "error" (WsSvc.connTimeoutFire (WsSvc.connect WsSvc.initSt).1).2 = 0 ∧
      (WsSvc.connTimeoutFire (WsSvc.connect WsSvc.initSt).1).2 =
        [Out.wsClose none, Out.promiseReject "Connection timeout"] := by decide

/-- C6 (amended): ws-service connect arms a 10000 ms connection timeout whose
expiry while the socket is not open closes the socket and rejects the connect
promise with Connection timeout — emitting neither an error nor a connect
event — while audio-service connect arms no connection timeout at all. -/
theorem C6_timeout_amended :
    Out.timerSet 10000 ∈ (WsSvc.connect WsSvc.initSt).2 ∧
      (∀ s : WsSvc.St, s.ws ≠ some ReadyState.OPEN →
        WsSvc.connTimeoutFire s =
          (s, (if s.ws.isSome then [Out.wsClose none] else []) ++
              [Out.promiseReject "Connection timeout"]) ∧
        countEmit "connect" (WsSvc.connTimeoutFire s).2 = 0 ∧
        countEmit "error" (WsSvc.connTimeoutFire s).2 = 0) ∧
      (∀ (url : String) (s : AudioSvc.St), countTimers (AudioSvc.connect url s).2 = 0) := by
  refine ⟨by decide, ?_, ?_⟩
  · intro s h
    refine ⟨?_, ?_, ?_⟩
    · unfold WsSvc.connTimeoutFire
      rw [if_neg h]
    · cases hw : s.ws.isSome <;>
        simp [WsSvc.connTimeoutFire, h, hw, countEmit, List.countP_append,
              List.countP_cons, List.countP_nil]
    · cases hw : s.ws.isSome <;>
        simp [WsSvc.connTimeoutFire, h, hw, countEmit, List.countP_append,
              List.countP_cons, List.countP_nil]
  · intro url s
    unfold AudioSvc.connect
    split_ifs <;>
      simp [countTimers, List.countP_append, List.countP_cons, List.countP_nil]

/-- Witness for C6 at the fresh ws-service state. -/
theorem C6_timeout_amended_witness :
    WsSvc.connTimeoutFire WsSvc.initSt =
        (WsSvc.initSt, (if WsSvc.initSt.ws.isSome then [Out.wsClose none] else []) ++
          [Out.promiseReject "Connection timeout"]) ∧
      countEmit "connect" (WsSvc.connTimeoutFire WsSvc.initSt).2 = 0 ∧
      countEmit "error" (WsSvc.connTimeoutFire WsSvc.initSt).2 = 0 :=
  (C6_timeout_amended).2.1 WsSvc.initSt (by decide)

/-- C8 counterexample: a buffer that begins with RIFF and contains WAVE but
also contains ftyp and M4A is classified m4a, not wav (the m4a check runs
first); and a buffer matching no signature is classified directly as m4a, not
as a distinct unknown tag. -/
theorem C8_counterexample :
    startsWithB (sigBytes "RIFF") (sigBytes "RIFFftypM4AWAVE") = true ∧
      includesB (sigBytes "WAVE") (sigBytes "RIFFftypM4AWAVE") = true ∧
      detectAudioFormat (b64encode (sigBytes "RIFFftypM4AWAVE")) = "m4a" ∧
      detectAudioFormat (b64encode [0, 1, 2, 3]) = "m4a" := by decide

/-- C8 (amended): the detector inspects only the first 75 decoded bytes (100
base64 characters) of the buffer and tests signatures in priority order — a
buffer beginning with RIFF and containing WAVE in that window classifies wav
only when neither the ftyp-and-M4A pair nor webm matched earlier; OggS
classifies ogg only when no earlier signature matched; with no match the
detector returns m4a directly (there is no distinct unknown tag) and the
playback MIME hint is audio/mp4. -/
theorem C8_detector_amended (B : Bytes) (hB : ∀ x ∈ B, x < 256) :
    ((includesB (sigBytes "ftyp") (B.take 75) &&
        includesB (sigBytes "M4A") (B.take 75)) = false →
     includesB (sigBytes "webm") (B.take 75) = false →
     (startsWithB (sigBytes "RIFF") (B.take 75) &&
        includesB (sigBytes "WAVE") (B.take 75)) = true →
     detectAudioFormat (b64encode B) = "wav") ∧
    ((includesB (sigBytes "ftyp") (B.take 75) &&
        includesB (sigBytes "M4A") (B.take 75)) = false →
     includesB (sigBytes "webm") (B.take 75) = false →
     (startsWithB (sigBytes "RIFF") (B.take 75) &&
        includesB (sigBytes "WAVE") (B.take 75)) = false →
     startsWithB (sigBytes "OggS") (B.take 75) = true →
     detectAudioFormat (b64encode B) = "ogg") ∧
    ((includesB (sigBytes "ftyp") (B.take 75) &&
        includesB (sigBytes "M4A") (B.take 75)) = false →
     includesB (sigBytes "webm") (B.take 75) = false →
     (startsWithB (sigBytes "RIFF") (B.take 75) &&
        includesB (sigBytes "WAVE") (B.take 75)) = false →
     startsWithB (sigBytes "OggS") (B.take 75) = false →
     detectAudioFormat (b64encode B) = "m4a" ∧
     getMimeTypeFromFormat (detectAudioFormat (b64encode B)) = "audio/mp4") := by
  have hstrip : stripDataUri (b64encode B) = b64encode B :=
    stripDataUri_of_no_colon (colon_not_mem_b64encode B.length B le_rfl)
  have hdec : atobJS ((b64encode B).take 100) = some (B.take 75) := by
    have h := b64decodeLoop_take B.length B le_rfl hB 25
    simpa [atobJS] using h
  have key : detectAudioFormat (b64encode B) =
      (if (includesB (sigBytes "ftyp") (B.take 75) &&
            includesB (sigBytes "M4A") (B.take 75)) = true then "m4a"
       else if includesB (sigBytes "webm") (B.take 75) = true then "webm"
       else if (startsWithB (sigBytes "RIFF") (B.take 75) &&
            includesB (sigBytes "WAVE") (B.take 75)) = true then "wav"
       else if startsWithB (sigBytes "OggS") (B.take 75) = true then "ogg"
       else "m4a") := by
    simp only [detectAudioFormat]
    rw [hstrip, hdec]
  refine ⟨?_, ?_, ?_⟩
  · intro h1 h2 h3
    rw [key, if_neg (by simp [h1]), if_neg (by simp [h2]), if_pos h3]
  · intro h1 h2 h3 h4
    rw [key, if_neg (by simp [h1]), if_neg (by simp [h2]), if_neg (by simp [h3]),
        if_pos h4]
  · intro h1 h2 h3 h4
    constructor
    · rw [key, if_neg (by simp [h1]), if_neg (by simp [h2]), if_neg (by simp [h3]),
          if_neg (by simp [h4])]
    · rw [key, if_neg (by simp [h1]), if_neg (by simp [h2]), if_neg (by simp [h3]),
          if_neg (by simp [h4])]
      rfl

/-- Witness for C8 at a concrete wav buffer. -/
theorem C8_detector_amended_witness :
    detectAudioFormat (b64encode (sigBytes "RIFFaaaaWAVEbbbb")) = "wav" :=
  (C8_detector_amended (sigBytes "RIFFaaaaWAVEbbbb") (by decide)).1
    (by decide) (by decide) (by decide)
